import Mathlib

/-!
Shallow embedding of `src/vision/py_scripts/testVision.py`, a single Python
script driving a stereo depth camera through the vendor SDK (`pyzed.sl`).

The vendor SDK itself is closed-source and not part of the repository; its
surface (open, grab, retrieve, per-pixel lookup) is modelled from the
specification as total functions over an environment `CameraEnv` describing
one device and one frame.  Every function of the script is transcribed
line by line; printed output is collected into `List String`, the Python
return value of each function is made explicit, and a Python exception is
an `Except.error`.
-/

set_option linter.unusedVariables false

/-- Model of a Python float as it is used by the script: NaN, infinity, or a
finite value (represented exactly as a rational). -/
inductive PyFloat where
  | nan : PyFloat
  | inf : PyFloat
  | fin : ℚ → PyFloat
  deriving DecidableEq

/-- Python `==` on floats: NaN compares unequal to everything (itself
included); finite values compare by value. -/
def PyFloat.beq : PyFloat → PyFloat → Bool
  | PyFloat.fin a, PyFloat.fin b => a == b
  | PyFloat.inf, PyFloat.inf => true
  | _, _ => false

/-- `np.isnan`. -/
def PyFloat.isNan : PyFloat → Bool
  | PyFloat.nan => true
  | _ => false

/-- `np.isinf`. -/
def PyFloat.isInf : PyFloat → Bool
  | PyFloat.inf => true
  | _ => false

/-- The two members of `sl.MEASURE` the script references. -/
inductive MEASURE where
  | DEPTH : MEASURE
  | XYZRGBA : MEASURE
  deriving DecidableEq

/-- Python truthiness of a `sl.MEASURE` enum member: an enum instance is
truthy (and the underlying SDK values of these members are nonzero), so the
condition `if (sl.MEASURE.DEPTH):` at line 72 of the source evaluates to
true regardless of the `depth_mode` argument. -/
def MEASURE.truthy (m : MEASURE) : Bool := true

/-- Members of `sl.ERROR_CODE` as the script references them.  `SUCCESS` is
the sentinel the SDK returns on a successful open or grab; `FAILURE` stands
for any non-success device outcome.  The constructor `success` models the
alternate lowercase constant written at line 48 of the source, which, per
the specification, is a constant that does not match the actual success
sentinel. -/
inductive ERROR_CODE where
  | SUCCESS : ERROR_CODE
  | FAILURE : ERROR_CODE
  | success : ERROR_CODE
  deriving DecidableEq

/-- Python exceptions raised by the embedded code. -/
inductive PyErr where
  | typeError : PyErr
  deriving DecidableEq

/-- Modelled from the spec: a retrieved depth buffer.  `get_value` is the
SDK per-pixel lookup as the live code path uses it (a scalar depth float);
`get_value_cloud` is the same lookup as the dead point-cloud path
destructures it, an error code paired with the 3D point at the pixel. -/
structure DepthMap where
  get_value : ℕ → ℕ → PyFloat
  get_value_cloud : ℕ → ℕ → ERROR_CODE × (ℚ × ℚ × ℚ)

/-- Modelled from the spec: a failed per-pixel lookup yields the sentinel
value -1. -/
def lookupFailed (depth_map : DepthMap) (x y : ℕ) : Prop :=
  depth_map.get_value x y = PyFloat.fin (-1)

/-- CPython `math.sqrt` accepts exactly one argument; the call at line 76
of the source passes three, which raises `TypeError` instead of computing
anything. -/
def math_sqrt3 (a b c : ℚ) : Except PyErr PyFloat :=
  Except.error PyErr.typeError

/-- Environment describing one camera device and the (single, reused) frame
it delivers, modelled from the spec: open outcome, reported serial number,
grab outcome, left-view image geometry and capture timestamp, and the
depth-map view of the session used for the point-distance query. -/
structure CameraEnv where
  open_result : ERROR_CODE
  serial_number : ℕ
  grab_ok : Bool
  image_width : ℕ
  image_height : ℕ
  timestamp : ℕ
  as_depth_map : DepthMap

/-- Modelled from the spec: `grab` captures the next frame and signals
success with the sentinel `ERROR_CODE.SUCCESS`, anything else on failure. -/
def CameraEnv.grab (camera : CameraEnv) : ERROR_CODE :=
  if camera.grab_ok then ERROR_CODE.SUCCESS else ERROR_CODE.FAILURE

/-- Modelled from the spec: the SDK constant that actually signals success. -/
def sdk_success_sentinel : ERROR_CODE := ERROR_CODE.SUCCESS

/-- The constant `captureImage` compares the grab result against
(line 37 of the source: `sl.ERROR_CODE.SUCCESS`). -/
def captureImage_grab_check : ERROR_CODE := ERROR_CODE.SUCCESS

/-- The constant `getDepth` compares the grab result against
(line 48 of the source: `sl.ERROR_CODE.success`, the lowercase form). -/
def getDepth_grab_check : ERROR_CODE := ERROR_CODE.success

/-- The constant `getImageandDepth` compares the grab result against
(line 58 of the source: `sl.ERROR_CODE.SUCCESS`). -/
def getImageandDepth_grab_check : ERROR_CODE := ERROR_CODE.SUCCESS

/-- Line 10 of the source. -/
def initLine : String := "Initializing camera..."

/-- Line 23 of the source. -/
def openFailLine : String := "An unexpected error occurred while opening the camera."

/-- Line 27 of the source: `print("Camera serial number: ", zed_serial)`
(the comma makes `print` insert one more space before the number). -/
def serialLine (camera : CameraEnv) : String :=
  "Camera serial number:  " ++ toString camera.serial_number

/-- The string printed at lines 40 and 62 of the source once formatted:
`"Image resolution : {0} x {1} || Image timestamp : {2}\n"`. -/
def imageLine (w h t : ℕ) : String :=
  "Image resolution : " ++ toString w ++ " x " ++ toString h ++
    " || Image timestamp : " ++ toString t ++ "\n"

/-- `initCamera` (lines 8-29 of the source): configure and open the camera;
on a non-SUCCESS open result print a diagnostic and `exit(1)` (the
`Except.error` carries the exit status and the output so far); on success
print the serial number and return the camera together with the output. -/
def initCamera (env : CameraEnv) : Except (ℕ × List String) (CameraEnv × List String) :=
  if env.open_result ≠ ERROR_CODE.SUCCESS then
    Except.error (1, [initLine, openFailLine])
  else
    Except.ok (env, [initLine, serialLine env])

/-- A retrieved left-view color image (geometry only; the pixel buffer
plays no role in any claim). -/
structure FrameImage where
  width : ℕ
  height : ℕ
  deriving DecidableEq

/-- Observable outcome of one `captureImage` call: the Python return value
(`ret`), whether `retrieve_image` ran, and what was printed. -/
structure CaptureImageRun where
  ret : Option (FrameImage × ℕ)
  retrieved : Bool
  printed : List String
  deriving DecidableEq

/-- `captureImage` (lines 34-40 of the source): grab, and on success
retrieve the left image and print resolution and timestamp.  The function
body has no `return` statement, so the Python return value is `None`
(`ret := none`) on every path. -/
def captureImage (camera : CameraEnv) : CaptureImageRun :=
  if camera.grab = captureImage_grab_check then
    { ret := none
      retrieved := true
      printed := [imageLine camera.image_width camera.image_height camera.timestamp] }
  else
    { ret := none, retrieved := false, printed := [] }

/-- Observable outcome of one `getDepth` call. -/
structure GetDepthRun where
  ret : Option DepthMap
  retrieved : Bool
  printed : List String

/-- `getDepth` (lines 46-49 of the source): grab, compare against the
lowercase constant, and retrieve the depth measure only when the comparison
holds.  No `return` statement, so the Python return value is `None`. -/
def getDepth (camera : CameraEnv) : GetDepthRun :=
  if camera.grab = getDepth_grab_check then
    { ret := none, retrieved := true, printed := [] }
  else
    { ret := none, retrieved := false, printed := [] }

/-- Observable outcome of one `getImageandDepth` call. -/
structure GetImageandDepthRun where
  ret : Option (FrameImage × ℕ)
  retrieved_image : Bool
  retrieved_depth : Bool
  printed : List String
  deriving DecidableEq

/-- `getImageandDepth` (lines 55-62 of the source): grab, and on success
retrieve the left image and the depth measure against the single grab, then
print resolution and timestamp.  No `return` statement. -/
def getImageandDepth (camera : CameraEnv) : GetImageandDepthRun :=
  if camera.grab = getImageandDepth_grab_check then
    { ret := none
      retrieved_image := true
      retrieved_depth := true
      printed := [imageLine camera.image_width camera.image_height camera.timestamp] }
  else
    { ret := none, retrieved_image := false, retrieved_depth := false, printed := [] }

/-- `getDistForPoint` (lines 70-85 of the source), transcribed branch by
branch.  `distance` starts at -1; the first condition is the truthiness of
the constant `sl.MEASURE.DEPTH` (not a comparison with `depth_mode`), the
second the truthiness of `sl.MEASURE.XYZRGBA`; the second branch
destructures the lookup and calls `math.sqrt` with three arguments.  After
the branch, three independent checks append the sentinel / NaN / infinity
diagnostics, and the raw `distance` is returned together with everything
printed. -/
def getDistForPoint (depth_map : DepthMap) (point : ℕ × ℕ) (depth_mode : MEASURE) :
    Except PyErr (PyFloat × List String) :=
  let distance0 : PyFloat := PyFloat.fin (-1)
  let branch : Except PyErr (PyFloat × List String) :=
    if (MEASURE.DEPTH).truthy then
      Except.ok (depth_map.get_value point.1 point.2, [])
    else if (MEASURE.XYZRGBA).truthy then
      let pcv := (depth_map.get_value_cloud point.1 point.2).2
      match math_sqrt3 (pcv.1 ^ 2) (pcv.2.1 ^ 2) (pcv.2.2 ^ 2) with
      | Except.error e => Except.error e
      | Except.ok v => Except.ok (v, [])
    else
      Except.ok (distance0, ["Error: Unknown depth mode"])
  match branch with
  | Except.error e => Except.error e
  | Except.ok (distance, logs) =>
      let logs := logs ++
        (if distance.beq (PyFloat.fin (-1)) then
          ["Error: Could not get distance for point"] else [])
      let logs := logs ++
        (if distance.isNan then
          ["Error: Maybe you\x27re too close to the object?"] else [])
      let logs := logs ++
        (if distance.isInf then
          ["Error: Maybe you\x27re too far from the object?"] else [])
      Except.ok (distance, logs)

/-- The scalar-depth branch of `getDistForPoint` on its own (lines 71, 73
and 79-85 of the source): look the scalar value up, run the three
diagnostic checks, return the raw value. -/
def depthBranchRun (depth_map : DepthMap) (point : ℕ × ℕ) :
    Except PyErr (PyFloat × List String) :=
  let distance := depth_map.get_value point.1 point.2
  let logs : List String :=
    (if distance.beq (PyFloat.fin (-1)) then
      ["Error: Could not get distance for point"] else [])
  let logs := logs ++
    (if distance.isNan then
      ["Error: Maybe you\x27re too close to the object?"] else [])
  let logs := logs ++
    (if distance.isInf then
      ["Error: Maybe you\x27re too far from the object?"] else [])
  Except.ok (distance, logs)

/-- Observable outcome of the `__main__` block: the process exit status,
everything printed, and whether `zed.close()` was reached. -/
structure MainRun where
  status : ℕ
  printed : List String
  closed : Bool

/-- The `__main__` block (lines 87-92 of the source): `initCamera`, then
`captureImage`, `getDepth`, `getDistForPoint(zed, (0,0), sl.MEASURE.DEPTH)`
(the source passes the camera object where a depth map is expected —
duck-typed in Python, modelled by the camera's depth-map view
`as_depth_map`), then `zed.close()`.  `exit(1)` inside `initCamera` ends
the process with status 1; an uncaught exception would also end it with a
nonzero status, modelled as status 1 with `close` not reached; otherwise
the script falls off the end with implicit status 0. -/
def mainRun (env : CameraEnv) : MainRun :=
  match initCamera env with
  | Except.error (code, logs) => { status := code, printed := logs, closed := false }
  | Except.ok (zed, logs) =>
      let r1 := captureImage zed
      let r2 := getDepth zed
      match getDistForPoint zed.as_depth_map (0, 0) MEASURE.DEPTH with
      | Except.error e =>
          { status := 1, printed := logs ++ r1.printed ++ r2.printed, closed := false }
      | Except.ok (d, logs3) =>
          { status := 0, printed := logs ++ r1.printed ++ r2.printed ++ logs3
            closed := true }

/-- Helper: for every input, `getDistForPoint` runs exactly the
scalar-depth branch. -/
theorem getDistForPoint_eq_depthBranchRun (depth_map : DepthMap) (point : ℕ × ℕ)
    (depth_mode : MEASURE) :
    getDistForPoint depth_map point depth_mode = depthBranchRun depth_map point := rfl

/-- Helper: `depthBranchRun` always succeeds with the raw looked-up value. -/
theorem depthBranchRun_ok (depth_map : DepthMap) (point : ℕ × ℕ) :
    ∃ logs, depthBranchRun depth_map point =
      Except.ok (depth_map.get_value point.1 point.2, logs) := ⟨_, rfl⟩

/-- A concrete depth-buffer environment: every pixel lookup yields the
sentinel -1 (the spec's model of an unset pixel). -/
def unsetMap : DepthMap :=
  { get_value := fun _ _ => PyFloat.fin (-1)
    get_value_cloud := fun _ _ => (ERROR_CODE.SUCCESS, (0, 0, 0)) }

/-- A concrete camera environment whose open succeeds and whose grab
succeeds. -/
def envGrabOk : CameraEnv :=
  { open_result := ERROR_CODE.SUCCESS
    serial_number := 12345
    grab_ok := true
    image_width := 1280
    image_height := 720
    timestamp := 1700000000
    as_depth_map := unsetMap }

/-- A concrete camera environment whose open fails. -/
def envOpenFail : CameraEnv :=
  { open_result := ERROR_CODE.FAILURE
    serial_number := 12345
    grab_ok := true
    image_width := 1280
    image_height := 720
    timestamp := 1700000000
    as_depth_map := unsetMap }

/-- Claim C1: for every depth map, point, and supported depth mode (DEPTH
or XYZRGBA), `getDistForPoint` never raises an exception and always
returns a float value, which the caller must validate separately. -/
theorem getDistForPoint_total (depth_map : DepthMap) (point : ℕ × ℕ)
    (depth_mode : MEASURE) :
    ∃ (v : PyFloat) (logs : List String),
      getDistForPoint depth_map point depth_mode = Except.ok (v, logs) := ⟨_, _, rfl⟩

/-- Claim C2: the depth-only retrieval path `getDepth` checks the grab
result against the lowercase constant, which differs from the sentinel
`SUCCESS` checked at every other grab call site (`captureImage` and
`getImageandDepth`); consequently the equality test in `getDepth` never
matches the value a grab actually returns. -/
theorem getDepth_checks_wrong_sentinel :
    getDepth_grab_check ≠ sdk_success_sentinel ∧
    captureImage_grab_check = sdk_success_sentinel ∧
    getImageandDepth_grab_check = sdk_success_sentinel ∧
    ∀ camera : CameraEnv, camera.grab ≠ getDepth_grab_check := by
  refine ⟨by decide, rfl, rfl, fun camera => ?_⟩
  cases h : camera.grab_ok <;> simp [CameraEnv.grab, h, getDepth_grab_check]

/-- A concrete point-cloud buffer: pixel (0,0) carries the 3D point
(3, 4, 12), whose Euclidean distance from the origin is 13; the scalar
lookup at that pixel yields 7. -/
def cloudMapC3 : DepthMap :=
  { get_value := fun _ _ => PyFloat.fin 7
    get_value_cloud := fun _ _ => (ERROR_CODE.SUCCESS, (3, 4, 12)) }

/-- Claim C3, evaluated at the failing input: called with mode XYZRGBA on
`cloudMapC3`, `getDistForPoint` returns the raw scalar lookup 7 (the
always-taken first branch), not the Euclidean distance 13 of the 3D point
(3,4,12); and the three-argument `math.sqrt` call of the point-cloud
branch raises TypeError instead of computing that distance. -/
theorem getDistForPoint_C3_failing_input :
    getDistForPoint cloudMapC3 (0, 0) MEASURE.XYZRGBA =
      Except.ok (PyFloat.fin 7, []) ∧
    math_sqrt3 (3 ^ 2) (4 ^ 2) (12 ^ 2) = Except.error PyErr.typeError ∧
    (7 : ℚ) ^ 2 ≠ 3 ^ 2 + 4 ^ 2 + 12 ^ 2 := by
  refine ⟨?_, rfl, by norm_num⟩
  simp [getDistForPoint, cloudMapC3, PyFloat.beq, PyFloat.isNan, PyFloat.isInf,
    MEASURE.truthy]
  norm_num

/-- Claim C4: the fixed main sequence exits with status 1 exactly when the
camera open fails; when open succeeds it runs the whole sequence, reaches
`close`, and terminates with implicit status 0. -/
theorem mainRun_exit_status (env : CameraEnv) :
    ((mainRun env).status = 1 ↔ env.open_result ≠ ERROR_CODE.SUCCESS) ∧
    (env.open_result = ERROR_CODE.SUCCESS →
      (mainRun env).status = 0 ∧ (mainRun env).closed = true) := by
  obtain ⟨o, s, g, w, hh, t, dm⟩ := env
  cases o with
  | SUCCESS =>
      refine ⟨?_, fun _ => ⟨rfl, rfl⟩⟩
      rw [show (mainRun ⟨ERROR_CODE.SUCCESS, s, g, w, hh, t, dm⟩).status = 0 from rfl]
      simp
  | FAILURE =>
      refine ⟨?_, fun hcon => ERROR_CODE.noConfusion hcon⟩
      rw [show (mainRun ⟨ERROR_CODE.FAILURE, s, g, w, hh, t, dm⟩).status = 1 from rfl]
      simp
  | success =>
      refine ⟨?_, fun hcon => ERROR_CODE.noConfusion hcon⟩
      rw [show (mainRun ⟨ERROR_CODE.success, s, g, w, hh, t, dm⟩).status = 1 from rfl]
      simp

/-- Witness for claim C4 at a concrete environment whose open succeeds. -/
theorem mainRun_exit_status_witness :
    (mainRun envGrabOk).status = 0 ∧ (mainRun envGrabOk).closed = true :=
  (mainRun_exit_status envGrabOk).2 rfl

/-- Claim C5, counterexample: on a camera whose grab succeeds,
`captureImage` returns `None` to its caller (not the image and timestamp),
and `getDepth` returns `None` and never even retrieves the depth buffer
(its grab check compares against the mismatched constant). -/
theorem captureImage_returns_nothing :
    (captureImage envGrabOk).ret = none ∧
    (getDepth envGrabOk).ret = none ∧
    (getDepth envGrabOk).retrieved = false := by
  refine ⟨rfl, rfl, ?_⟩
  simp [getDepth, envGrabOk, CameraEnv.grab, getDepth_grab_check]

/-- Claim C5 as amended: after a successful grab, `captureImage` retrieves
the left-view image and prints the resolution-and-timestamp line, but its
Python return value is `None`; `getDepth` also returns `None`, and because
its grab check uses the mismatched lowercase constant it never performs
the depth retrieval. -/
theorem captureImage_prints_but_returns_none (env : CameraEnv)
    (h : env.grab_ok = true) :
    (captureImage env).ret = none ∧
    (captureImage env).retrieved = true ∧
    (captureImage env).printed =
      [imageLine env.image_width env.image_height env.timestamp] ∧
    (getDepth env).ret = none ∧
    (getDepth env).retrieved = false := by
  refine ⟨?_, ?_, ?_, ?_, ?_⟩ <;>
    simp [captureImage, getDepth, CameraEnv.grab, h, captureImage_grab_check,
      getDepth_grab_check]

/-- Witness for the amended claim C5 at a concrete environment. -/
theorem captureImage_prints_but_returns_none_witness :
    (captureImage envGrabOk).retrieved = true ∧
    (getDepth envGrabOk).retrieved = false :=
  ⟨(captureImage_prints_but_returns_none envGrabOk rfl).2.1,
   (captureImage_prints_but_returns_none envGrabOk rfl).2.2.2.2⟩

/-- Claim C6: with mode DEPTH on a depth buffer whose pixel (0,0) lookup
fails (yielding, per the spec, the sentinel -1), `getDistForPoint` returns
-1 and prints the diagnostic about not getting the distance for the
point. -/
theorem getDistForPoint_unset_pixel (depth_map : DepthMap)
    (h : lookupFailed depth_map 0 0) :
    getDistForPoint depth_map (0, 0) MEASURE.DEPTH =
      Except.ok (PyFloat.fin (-1), ["Error: Could not get distance for point"]) := by
  have h' : depth_map.get_value 0 0 = PyFloat.fin (-1) := h
  simp [getDistForPoint, h', PyFloat.beq, PyFloat.isNan, PyFloat.isInf, MEASURE.truthy]

/-- Witness for claim C6 at the concrete buffer whose lookups all fail. -/
theorem getDistForPoint_unset_pixel_witness :
    getDistForPoint unsetMap (0, 0) MEASURE.DEPTH =
      Except.ok (PyFloat.fin (-1), ["Error: Could not get distance for point"]) :=
  getDistForPoint_unset_pixel unsetMap rfl

/-- A concrete point-cloud buffer whose pixel (0,0) carries the 3D point
(0, 0, 0); the scalar lookup the live branch performs yields NaN there. -/
def originCloudMap : DepthMap :=
  { get_value := fun _ _ => PyFloat.nan
    get_value_cloud := fun _ _ => (ERROR_CODE.SUCCESS, (0, 0, 0)) }

/-- Claim C7, evaluated at the failing input: at pixel (0,0) of a
point-cloud buffer mapping that pixel to (0,0,0), `getDistForPoint`
returns the raw scalar lookup (NaN here, with the too-close diagnostic),
not the distance 0.0 the claim requires. -/
theorem getDistForPoint_C7_failing_input :
    getDistForPoint originCloudMap (0, 0) MEASURE.XYZRGBA =
      Except.ok (PyFloat.nan, ["Error: Maybe you\x27re too close to the object?"]) ∧
    PyFloat.nan ≠ PyFloat.fin 0 := by
  refine ⟨?_, by decide⟩
  simp [getDistForPoint, originCloudMap, PyFloat.beq, PyFloat.isNan, PyFloat.isInf,
    MEASURE.truthy]

/-- Helper: the decimal representation of a natural number is never the
empty string. -/
theorem natToStringNeNil (n : ℕ) : toString n ≠ "" := by
  show Nat.repr n ≠ ""
  unfold Nat.repr
  intro hcontra
  have hdig : Nat.toDigits 10 n = [] := by
    have := congrArg String.data hcontra
    simpa [List.asString] using this
  revert hdig
  unfold Nat.toDigits Nat.toDigitsCore
  dsimp only
  by_cases hnb : n / 10 = 0
  · simp [hnb]
  · rw [if_neg hnb]
    intro hlen
    have h2 := Nat.toDigitsCore_lens_eq 10 n (n / 10) (Nat.digitChar (n % 10)) []
    rw [hlen] at h2
    simp at h2

/-- Claim C8: `initCamera` with the fixed configuration has exactly two
outcomes: it exits with status 1 and the failure diagnostic, or it returns
the camera handle after logging its serial number, whose decimal report is
non-empty — no third outcome. -/
theorem initCamera_two_outcomes (env : CameraEnv) :
    (env.open_result ≠ ERROR_CODE.SUCCESS ∧
      initCamera env = Except.error (1, [initLine, openFailLine])) ∨
    (initCamera env = Except.ok (env, [initLine, serialLine env]) ∧
      toString env.serial_number ≠ "") := by
  by_cases h : env.open_result = ERROR_CODE.SUCCESS
  · right
    exact ⟨by rw [initCamera, if_neg (by simp [h])], natToStringNeNil env.serial_number⟩
  · left
    exact ⟨h, by rw [initCamera, if_pos (by simp [h])]⟩

/-- Claim C9: given the same successful grab, `captureImage` and
`getImageandDepth` print the same resolution-and-timestamp line, so they
report identical width, height, and timestamp for the image. -/
theorem image_report_agrees (env : CameraEnv) (h : env.grab_ok = true) :
    (captureImage env).printed = (getImageandDepth env).printed := by
  simp [captureImage, getImageandDepth, CameraEnv.grab, h,
    captureImage_grab_check, getImageandDepth_grab_check]

/-- Witness for claim C9 at a concrete environment whose grab succeeds. -/
theorem image_report_agrees_witness :
    (captureImage envGrabOk).printed = (getImageandDepth envGrabOk).printed :=
  image_report_agrees envGrabOk rfl

/-- Claim C10: `getDistForPoint` is oblivious to its `depth_mode`
argument: any two modes yield the identical result and diagnostics,
because the branch condition is the truthiness of the constant
`sl.MEASURE.DEPTH`, so the scalar-depth branch runs for every input and
the point-cloud and unknown-mode branches are unreachable. -/
theorem getDistForPoint_mode_oblivious (depth_map : DepthMap) (point : ℕ × ℕ)
    (m₁ m₂ : MEASURE) :
    getDistForPoint depth_map point m₁ = getDistForPoint depth_map point m₂ ∧
    getDistForPoint depth_map point m₁ = depthBranchRun depth_map point ∧
    (MEASURE.DEPTH).truthy = true := ⟨rfl, rfl, rfl⟩
